import Mathlib

/-
Verification development for the NttCis load-balancer driver
(libcloud/loadbalancer/drivers/nttcis.py).

The driver builds XML request trees, POSTs them through a generic HTTP
connection, and parses XML responses into flat DTO records.  The embedding
below models XML elements as a simple tree type, the connection as an
abstract response function from (action, request) to a response element,
and each driver method as a pure function that returns its result together
with the trace of (action, request) pairs it issued.
-/

namespace NttCisModel

/-- Modelled from the spec: the generic XML element type of the external
ElementTree / findtext / findall helper library.  An element has a tag, an
attribute list, optional text and a list of child elements. -/
structure XElem where
  tag : String
  attrs : List (String × String)
  text : Option String
  children : List XElem

/-- Child element carrying only text, as built by ET.SubElement followed by
an assignment to its text field. -/
def subText (tag : String) (t : Option String) : XElem :=
  { tag := tag, attrs := [], text := t, children := [] }

/-- First child with the given tag, as ElementTree find on a direct child
path. -/
def firstChildNamed (tag : String) : List XElem → Option XElem
  | [] => none
  | c :: rest => if c.tag = tag then some c else firstChildNamed tag rest

/-- All children with the given tag, as ElementTree findall on a direct
child path. -/
def childrenNamed (tag : String) : List XElem → List XElem
  | [] => []
  | c :: rest => if c.tag = tag then c :: childrenNamed tag rest else childrenNamed tag rest

/-- Modelled from the spec: the external find helper (namespace handling via
fixxpath is dropped; tags are compared directly). -/
def xfind (e : XElem) (tag : String) : Option XElem := firstChildNamed tag e.children

/-- Modelled from the spec: the external findall helper. -/
def findall (e : XElem) (tag : String) : List XElem := childrenNamed tag e.children

/-- Modelled from the spec: the external findtext helper: text of the first
matching child (empty string when the child has no text), None when no
child matches. -/
def findtext (e : XElem) (tag : String) : Option String :=
  (xfind e tag).map (fun c => c.text.getD "")

/-- Lookup in an attribute list, as the Python dict get on element
attributes. -/
def attrLookup (key : String) : List (String × String) → Option String
  | [] => none
  | kv :: rest => if key = kv.1 then some kv.2 else attrLookup key rest

/-- Python element.get(key) on attributes. -/
def attrGet (e : XElem) (key : String) : Option String := attrLookup key e.attrs

/-- Texts of all children with the given tag, used to state request
properties. -/
def childTexts (e : XElem) (tag : String) : List (Option String) :=
  (findall e tag).map (fun c => c.text)

/-- Python str() applied to an optional string: None prints as None. -/
def pyStr : Option String → String
  | none => "None"
  | some s => s

/-- Python membership test of an optional string in a string list:
None is never a member of a string list, a string is compared per
element. -/
def pyInList : Option String → List String → Bool
  | none, _ => false
  | some _, [] => false
  | some s, x :: xs => if s = x then true else pyInList (some s) xs

/-- Decimal value of a digit character. -/
def pyDigitVal (c : Char) : Option Nat :=
  if c = '0' then some 0
  else if c = '1' then some 1
  else if c = '2' then some 2
  else if c = '3' then some 3
  else if c = '4' then some 4
  else if c = '5' then some 5
  else if c = '6' then some 6
  else if c = '7' then some 7
  else if c = '8' then some 8
  else if c = '9' then some 9
  else none

/-- Accumulate a decimal number over a character list; none on an empty
digit sequence or a non digit character. -/
def pyNatAux : Option Nat → List Char → Option Nat
  | acc, [] => acc
  | acc, c :: cs =>
    match pyDigitVal c with
    | none => none
    | some d =>
      match acc with
      | none => pyNatAux (some d) cs
      | some a => pyNatAux (some (a * 10 + d)) cs

/-- Python int() applied to a decimal string (models the conversion on
canonical decimal representations, with an optional leading minus sign;
Python raises on other inputs, modelled as none). -/
def pyIntParse (s : String) : Option Int :=
  match s.data with
  | '-' :: rest => (pyNatAux none rest).map (fun n => -(n : Int))
  | l => (pyNatAux none l).map (fun n => (n : Int))

/-- Python name.replace(" ", "_"): every space becomes an underscore. -/
def replaceSpaceWithUnderscore (s : String) : String :=
  String.mk (s.data.map (fun c => if c = ' ' then '_' else c))

/-- Modelled from the spec: the generic state enum of the load-balancer
base library (libcloud.loadbalancer.types.State), restricted to the
constants this driver uses. -/
inductive State where
  | RUNNING
  | PENDING
  | TERMINATED
  | UNKNOWN
  | ERROR
deriving DecidableEq

/-- Modelled from the spec: the balancing algorithm enum of the
load-balancer base library. -/
inductive Algorithm where
  | ROUND_ROBIN
  | LEAST_CONNECTIONS_MEMBER
  | LEAST_CONNECTIONS_NODE
  | OBSERVED_MEMBER
  | OBSERVED_NODE
  | PREDICTIVE_MEMBER
  | PREDICTIVE_NODE
deriving DecidableEq

/-- Dynamic value that is either a Python int or a Python str; used for
DTO fields that the driver fills with an int on one path and a string on
another. -/
inductive PyVal where
  | int (i : Int)
  | str (s : String)
deriving DecidableEq

/-- Dynamic status value: a State enum member on the create path, raw
vendor text on the parse path. -/
inductive StatusV where
  | enum (s : State)
  | txt (t : Option String)
deriving DecidableEq

/-- Modelled from the spec: the NttCisPool DTO (flat record whose fields
mirror the server representation). -/
structure NttCisPool where
  id : Option String
  name : Option String
  description : Option String
  status : StatusV
  load_balance_method : Option String
  health_monitor_id : Option String
  service_down_action : Option String
  slow_ramp_time : Option String
deriving DecidableEq

/-- Modelled from the spec: the NttCisVIPNode DTO. -/
structure NttCisVIPNode where
  id : Option String
  name : Option String
  status : State
  ip : Option String
  health_monitor : Option String
  connection_limit : Option String
  connection_rate_limit : Option String
deriving DecidableEq

/-- Modelled from the spec: the NttCisPoolMember DTO. -/
structure NttCisPoolMember where
  id : Option String
  name : Option String
  status : StatusV
  ip : Option String
  port : Option PyVal
  node_id : Option String
deriving DecidableEq

/-- Modelled from the spec: the NttCisVirtualListener DTO. -/
structure NttCisVirtualListener where
  id : Option String
  name : Option String
  ip : Option String
  status : State
deriving DecidableEq

/-- Modelled from the spec: the Member DTO of the load-balancer base
library (fields the driver reads). -/
structure Member where
  id : Option String
  ip : Option String
  port : Option Int
deriving DecidableEq

/-- Modelled from the spec: the LoadBalancer DTO of the load-balancer base
library; the driver back-reference is omitted and extra is the insertion
ordered dict. -/
structure LoadBalancer where
  id : Option String
  name : Option String
  state : State
  ip : Option String
  port : Option PyVal
  extra : List (String × Option String)
deriving DecidableEq

/-- Argument passed in the members list of create_balancer: either a
Member instance (the isinstance branch) or a duck typed compute node with
a name and private_ips list. -/
inductive MemberArg where
  | member (m : Member)
  | node (name : String) (private_ips : List String)
deriving DecidableEq

/-- Trace of (action, request element) pairs issued on the connection, in
order. -/
abbrev Trace := List (String × XElem)

/-- Modelled from the spec: the generic HTTP connection collaborator,
reduced to a deterministic response function from action and request data
to the parsed response element. -/
structure Conn where
  respond : String → XElem → XElem

/-- Connection that returns the same parsed response for every request. -/
def constConn (resp : XElem) : Conn := ⟨fun _ _ => resp⟩

/-- Modelled from the spec: the vendor XML namespace URN constant of the
common nttcis module. -/
def TYPES_URN : String := "urn:didata.com:api:cloud:types"

/-- Modelled from the spec: DEFAULT_ALGORITHM of the load-balancer base
library. -/
def DEFAULT_ALGORITHM : Algorithm := Algorithm.ROUND_ROBIN

/-- The reverse of _VALUE_TO_ALGORITHM_MAP, as _ALGORITHM_TO_VALUE_MAP
(source lines 51-60): vendor string for each algorithm. -/
def ALGORITHM_TO_VALUE_MAP : Algorithm → String
  | .ROUND_ROBIN => "ROUND_ROBIN"
  | .LEAST_CONNECTIONS_MEMBER => "LEAST_CONNECTIONS_MEMBER"
  | .LEAST_CONNECTIONS_NODE => "LEAST_CONNECTIONS_NODE"
  | .OBSERVED_MEMBER => "OBSERVED_MEMBER"
  | .OBSERVED_NODE => "OBSERVED_NODE"
  | .PREDICTIVE_MEMBER => "PREDICTIVE_MEMBER"
  | .PREDICTIVE_NODE => "PREDICTIVE_NODE"

/-- The _VALUE_TO_STATE_MAP dict of the driver (source lines 62-71). -/
def VALUE_TO_STATE_MAP : List (String × State) :=
  [("NORMAL", State.RUNNING),
   ("PENDING_ADD", State.PENDING),
   ("PENDING_CHANGE", State.PENDING),
   ("PENDING_DELETE", State.PENDING),
   ("FAILED_ADD", State.ERROR),
   ("FAILED_CHANGE", State.ERROR),
   ("FAILED_DELETE", State.ERROR),
   ("REQUIRES_SUPPORT", State.ERROR)]

/-- Association lookup, as Python dict indexing on string keys. -/
def lookupStr : List (String × State) → String → Option State
  | [], _ => none
  | kv :: rest, key => if key = kv.1 then some kv.2 else lookupStr rest key

/-- Python dict.get(key, default) where the key is an optional string:
None is never a key of a string keyed dict. -/
def dictGetState (m : List (String × State)) (key : Option String) (default : State) : State :=
  match key with
  | none => default
  | some k => (lookupStr m k).getD default

/-- The info scanning loop shared by the create operations: iterate over
the info children of the response and keep the value attribute of the last
one whose name attribute equals the key (None when there is none). -/
def infoScan (response : XElem) (key : String) : Option String :=
  (findall response "info").foldl
    (fun acc info => if attrGet info "name" = some key then attrGet info "value" else acc)
    none

/-- Optional child element: present with the given text exactly when the
argument is not None (the if v is not None idiom of the request builders). -/
def optChild (tag : String) : Option String → List XElem
  | none => []
  | some v => [subText tag (some v)]

/-- The createPool request element built by ex_create_pool (source lines
596-609).  health_monitors is modelled as the list of monitor ids. -/
def createPoolRequest (network_domain_id name balancer_method : String)
    (ex_description : Option String) (health_monitors : Option (List String))
    (service_down_action : String) (slow_ramp_time : Int) : XElem :=
  { tag := "createPool", attrs := [("xmlns", TYPES_URN)], text := none,
    children :=
      [subText "networkDomainId" (some network_domain_id),
       subText "name" (some name),
       subText "description" (some (pyStr ex_description)),
       subText "loadBalanceMethod" (some balancer_method)]
      ++ (match health_monitors with
          | none => []
          | some ms => ms.map (fun monitor_id => subText "healthMonitorId" (some monitor_id)))
      ++ [subText "serviceDownAction" (some service_down_action),
          subText "slowRampTime" (some (toString slow_ramp_time))] }

/-- ex_create_pool (source lines 557-631).  The source computes
name.replace(" ", "_") on line 597 and discards the result; the discarded
computation is kept as a dead let binding. -/
def ex_create_pool (conn : Conn) (network_domain_id name balancer_method : String)
    (ex_description : Option String) (health_monitors : Option (List String))
    (service_down_action : String) (slow_ramp_time : Int) : NttCisPool × Trace :=
  let _ := replaceSpaceWithUnderscore name
  let req := createPoolRequest network_domain_id name balancer_method ex_description
    health_monitors service_down_action slow_ramp_time
  let response := conn.respond "networkDomainVip/createPool" req
  let pool_id := infoScan response "poolId"
  ({ id := pool_id,
     name := some name,
     description := ex_description,
     status := StatusV.enum State.RUNNING,
     load_balance_method := some balancer_method,
     health_monitor_id := none,
     service_down_action := some service_down_action,
     slow_ramp_time := some (toString slow_ramp_time) },
   [("networkDomainVip/createPool", req)])

/-- The createNode request element built by ex_create_node (source lines
486-494). -/
def createNodeRequest (network_domain_id name ip : String) (ex_description : Option String)
    (connection_limit connection_rate_limit : Int) : XElem :=
  { tag := "createNode", attrs := [("xmlns", TYPES_URN)], text := none,
    children :=
      [subText "networkDomainId" (some network_domain_id),
       subText "name" (some name)]
      ++ optChild "description" ex_description
      ++ [subText "ipv4Address" (some ip),
          subText "status" (some "ENABLED"),
          subText "connectionLimit" (some (toString connection_limit)),
          subText "connectionRateLimit" (some (toString connection_rate_limit))] }

/-- ex_create_node (source lines 452-509). -/
def ex_create_node (conn : Conn) (network_domain_id name ip : String)
    (ex_description : Option String) (connection_limit connection_rate_limit : Int) :
    NttCisVIPNode × Trace :=
  let req := createNodeRequest network_domain_id name ip ex_description
    connection_limit connection_rate_limit
  let response := conn.respond "networkDomainVip/createNode" req
  let node_id := infoScan response "nodeId"
  let node_name := infoScan response "name"
  ({ id := node_id,
     name := node_name,
     status := State.RUNNING,
     ip := some ip,
     health_monitor := none,
     connection_limit := none,
     connection_rate_limit := none },
   [("networkDomainVip/createNode", req)])

/-- The addPoolMember request element built by ex_create_pool_member
(source lines 423-428). -/
def addPoolMemberRequest (pool_id node_id : Option String) (port : Option Int) : XElem :=
  { tag := "addPoolMember", attrs := [("xmlns", TYPES_URN)], text := none,
    children :=
      [subText "poolId" pool_id,
       subText "nodeId" node_id]
      ++ (match port with
          | none => []
          | some p => [subText "port" (some (toString p))])
      ++ [subText "status" (some "ENABLED")] }

/-- ex_create_pool_member (source lines 407-450).  The node argument is
duck typed in the source; only its id and ip attributes are read, so the
embedding takes those two fields. -/
def ex_create_pool_member (conn : Conn) (pool : NttCisPool)
    (node_id node_ip : Option String) (port : Option Int) : NttCisPoolMember × Trace :=
  let req := addPoolMemberRequest pool.id node_id port
  let response := conn.respond "networkDomainVip/addPoolMember" req
  let member_id := infoScan response "poolMemberId"
  let node_name := infoScan response "nodeName"
  ({ id := member_id,
     name := node_name,
     status := StatusV.enum State.RUNNING,
     ip := node_ip,
     port := port.map PyVal.int,
     node_id := node_id },
   [("networkDomainVip/addPoolMember", req)])

/-- The createVirtualListener request element built by
ex_create_virtual_listener (source lines 718-743); profile and irule
arguments are modelled by their ids. -/
def createVirtualListenerRequest (network_domain_id name : String)
    (ex_description : Option String) (listener_type protocol : String)
    (listener_ip_address : Option String) (port : Option Int)
    (connection_limit connection_rate_limit : Int) (source_port_preservation : String)
    (pool : Option NttCisPool) (persistence_profile_id : Option String)
    (optimization_profile : Option String) (fallback_persistence_profile_id : Option String)
    (irule_id : Option String) : XElem :=
  { tag := "createVirtualListener", attrs := [("xmlns", TYPES_URN)], text := none,
    children :=
      [subText "networkDomainId" (some network_domain_id),
       subText "name" (some name),
       subText "description" (some (pyStr ex_description)),
       subText "type" (some listener_type),
       subText "protocol" (some protocol)]
      ++ optChild "listenerIpAddress" listener_ip_address
      ++ (match port with
          | none => []
          | some p => [subText "port" (some (toString p))])
      ++ [subText "enabled" (some "true"),
          subText "connectionLimit" (some (toString connection_limit)),
          subText "connectionRateLimit" (some (toString connection_rate_limit)),
          subText "sourcePortPreservation" (some source_port_preservation)]
      ++ (match pool with
          | none => []
          | some p => [subText "poolId" p.id])
      ++ optChild "persistenceProfileId" persistence_profile_id
      ++ optChild "optimizationProfile" optimization_profile
      ++ optChild "fallbackPersistenceProfileId" fallback_persistence_profile_id
      ++ optChild "iruleId" irule_id }

/-- ex_create_virtual_listener (source lines 633-764): raises ValueError
(modelled as Except.error) when the computed type is STANDARD and no
optimization profile was given. -/
def ex_create_virtual_listener (conn : Conn) (network_domain_id name : String)
    (ex_description : Option String) (port : Option Int) (pool : Option NttCisPool)
    (listener_ip_address persistence_profile_id fallback_persistence_profile_id
     irule_id : Option String) (protocol : String) (optimization_profile : Option String)
    (connection_limit connection_rate_limit : Int) (source_port_preservation : String) :
    Except String (NttCisVirtualListener × Trace) :=
  let listener_type :=
    if port = some 80 ∨ port = some 443 then "PERFORMANCE_LAYER_4" else "STANDARD"
  if listener_type = "STANDARD" ∧ optimization_profile = none then
    Except.error (" CONFIGURATION_NOT_SUPPORTED: optimizationProfile is" ++
      " required for type STANDARD and protocol TCP")
  else
    let req := createVirtualListenerRequest network_domain_id name ex_description
      listener_type protocol listener_ip_address port connection_limit connection_rate_limit
      source_port_preservation pool persistence_profile_id optimization_profile
      fallback_persistence_profile_id irule_id
    let response := conn.respond "networkDomainVip/createVirtualListener" req
    Except.ok
      ({ id := infoScan response "virtualListenerId",
         name := some name,
         ip := infoScan response "listenerIpAddress",
         status := State.RUNNING },
       [("networkDomainVip/createVirtualListener", req)])

/-- One iteration of the members loop of create_balancer (source lines
178-187): a plain Member is attached directly, anything else is first
turned into a node via ex_create_node on its first private ip. -/
def attachMemberTrace (conn : Conn) (network_domain_id : String) (pool : NttCisPool)
    (port : Option Int) : MemberArg → Trace
  | MemberArg.member m => (ex_create_pool_member conn pool m.id m.ip port).2
  | MemberArg.node node_name private_ips =>
    let r := ex_create_node conn network_domain_id node_name (private_ips.headD "") none
      25000 2000
    r.2 ++ (ex_create_pool_member conn pool r.1.id r.1.ip port).2

/-- create_balancer (source lines 112-213). -/
def create_balancer (conn : Conn) (network_domain_id name : String)
    (listener_port port : Option Int) (protocol : Option String)
    (algorithm : Option Algorithm) (members : Option (List MemberArg))
    (optimization_profile ex_listener_ip_address : Option String) :
    Except String (LoadBalancer × Trace) :=
  let protocol := protocol.getD "http"
  let algorithm := algorithm.getD DEFAULT_ALGORITHM
  let poolR := ex_create_pool conn network_domain_id name (ALGORITHM_TO_VALUE_MAP algorithm)
    none none "NONE" 30
  let pool := poolR.1
  let memberT := (members.getD []).foldl
    (fun acc m => acc ++ attachMemberTrace conn network_domain_id pool port m) []
  match ex_create_virtual_listener conn network_domain_id name (some name) listener_port
    (some pool) ex_listener_ip_address none none none protocol optimization_profile
    25000 2000 "PRESERVE" with
  | Except.error e => Except.error e
  | Except.ok lr =>
    Except.ok
      ({ id := lr.1.id,
         name := lr.1.name,
         state := State.RUNNING,
         ip := lr.1.ip,
         port := port.map PyVal.int,
         extra := [("pool_id", pool.id),
                   ("network_domain_id", some network_domain_id),
                   ("listener_ip_address", ex_listener_ip_address)] },
       poolR.2 ++ memberT ++ lr.2)

/-- The editNode request element built by ex_set_node_state (source lines
547-548): only an xmlns attribute and a single status child. -/
def setNodeStateRequest (enabled : Bool) : XElem :=
  { tag := "editNode", attrs := [("xmlns", TYPES_URN)], text := none,
    children := [subText "status" (some (if enabled then "ENABLED" else "DISABLED"))] }

/-- ex_set_node_state (source lines 534-555). -/
def ex_set_node_state (conn : Conn) (node : NttCisVIPNode) (enabled : Bool) :
    NttCisVIPNode × Trace :=
  let req := setNodeStateRequest enabled
  let _ := conn.respond "networkDomainVip/editNode" req
  (node, [("networkDomainVip/editNode", req)])

/-- Default poll_interval of ex_wait_for_state (source line 1221). -/
def DEFAULT_POLL_INTERVAL : Int := 2

/-- Default timeout of ex_wait_for_state (source line 1221). -/
def DEFAULT_TIMEOUT : Int := 60

/-- ex_wait_for_state (source lines 1221-1246): a single delegation to the
wait_for_state method of the connection, which is an external collaborator
and is therefore abstracted as a function argument; the extra positional
and keyword arguments are bundled in the last parameter. -/
def ex_wait_for_state {A B C D : Type} (connection_wait_for_state : A → B → Int → Int → C → D)
    (state : A) (func : B) (poll_interval timeout : Int) (args : C) : D :=
  connection_wait_for_state state func poll_interval timeout args

/-- ex_wait_for_state called without poll_interval and timeout, applying
the defaults of the source signature. -/
def ex_wait_for_state_defaults {A B C D : Type}
    (connection_wait_for_state : A → B → Int → Int → C → D)
    (state : A) (func : B) (args : C) : D :=
  ex_wait_for_state connection_wait_for_state state func
    DEFAULT_POLL_INTERVAL DEFAULT_TIMEOUT args

/-- destroy_balancer (source lines 367-387). -/
def destroy_balancer (conn : Conn) (balancer : LoadBalancer) : Bool :=
  let delete_listener : XElem :=
    { tag := "deleteVirtualListener", attrs := [("xmlns", TYPES_URN), ("id", pyStr balancer.id)],
      text := none, children := [] }
  let result := conn.respond "networkDomainVip/deleteVirtualListener" delete_listener
  pyInList (findtext result "responseCode") ["IN_PROGRESS", "OK"]

/-- balancer_detach_member (source lines 344-365). -/
def balancer_detach_member (conn : Conn) (balancer : LoadBalancer) (member : Member) : Bool :=
  let _ := balancer
  let create_pool_m : XElem :=
    { tag := "removePoolMember", attrs := [("xmlns", TYPES_URN), ("id", pyStr member.id)],
      text := none, children := [] }
  let result := conn.respond "networkDomainVip/removePoolMember" create_pool_m
  pyInList (findtext result "responseCode") ["IN_PROGRESS", "OK"]

/-- ex_update_listener (source lines 215-241); keyword arguments modelled
as an ordered list of name and optional value pairs, a None value giving
an xsi nil child as in the source loop. -/
def ex_update_listener (conn : Conn) (virtual_listener_id : String)
    (kwargs : List (String × Option String)) : Bool :=
  let children := kwargs.map (fun kv =>
    match kv.2 with
    | none => ({ tag := kv.1, attrs := [("xsi:nil", "true")], text := none, children := [] } : XElem)
    | some v => subText kv.1 (some v))
  let edit_listener_elm : XElem :=
    { tag := "editVirtualListener",
      attrs := [("xmlns", TYPES_URN), ("id", virtual_listener_id),
                ("xmlns:xsi", "http://www.w3.org/2001/XMLSchema-instance")],
      text := none, children := children }
  let result := conn.respond "networkDomainVip/editVirtualListener" edit_listener_elm
  pyInList (findtext result "responseCode") ["IN_PROGRESS", "OK"]

/-- ex_update_pool (source lines 1049-1073). -/
def ex_update_pool (conn : Conn) (pool : NttCisPool) : Bool :=
  let create_node_elm : XElem :=
    { tag := "editPool", attrs := [("xmlns", TYPES_URN), ("id", pyStr pool.id)], text := none,
      children :=
        [subText "loadBalanceMethod" (some (pyStr pool.load_balance_method)),
         subText "healthMonitorId" pool.health_monitor_id,
         subText "serviceDownAction" pool.service_down_action,
         subText "slowRampTime" (some (pyStr pool.slow_ramp_time))] }
  let response := conn.respond "networkDomainVip/editPool" create_node_elm
  pyInList (findtext response "responseCode") ["IN_PROGRESS", "OK"]

/-- ex_destroy_pool (source lines 1075-1093). -/
def ex_destroy_pool (conn : Conn) (pool : NttCisPool) : Bool :=
  let destroy_request : XElem :=
    { tag := "deletePool", attrs := [("xmlns", TYPES_URN), ("id", pyStr pool.id)],
      text := none, children := [] }
  let result := conn.respond "networkDomainVip/deletePool" destroy_request
  pyInList (findtext result "responseCode") ["IN_PROGRESS", "OK"]

/-- ex_destroy_node (source lines 1200-1219). -/
def ex_destroy_node (conn : Conn) (node_id : String) : Bool :=
  let destroy_request : XElem :=
    { tag := "deleteNode", attrs := [("xmlns", TYPES_URN), ("id", node_id)],
      text := none, children := [] }
  let result := conn.respond "networkDomainVip/deleteNode" destroy_request
  pyInList (findtext result "responseCode") ["IN_PROGRESS", "OK"]

/-- ex_set_pool_member_state (source lines 1125-1137). -/
def ex_set_pool_member_state (conn : Conn) (member : NttCisPoolMember) (enabled : Bool) : Bool :=
  let state := if enabled then "ENABLED" else "DISABLED"
  let request : XElem :=
    { tag := "editPoolMember", attrs := [("xmlns", TYPES_URN), ("id", pyStr member.id)],
      text := none, children := [subText "status" (some state)] }
  let result := conn.respond "networkDomainVip/editPoolMember" request
  pyInList (findtext result "responseCode") ["IN_PROGRESS", "OK"]

/-- ex_import_ssl_domain_certificate (source lines 766-818); the
certificate and key are modelled after the OpenSSL load and dump round
trip, which is file system work outside the embedding. -/
def ex_import_ssl_domain_certificate (conn : Conn) (network_domain_id name : String)
    (cert key : String) (description : Option String) : Bool :=
  let cert_elem : XElem :=
    { tag := "importSslDomainCertificate", attrs := [("xmlns", TYPES_URN)], text := none,
      children :=
        [subText "networkDomainId" (some network_domain_id),
         subText "name" (some name)]
        ++ optChild "description" description
        ++ [subText "key" (some key),
            subText "certificate" (some cert)] }
  let result := conn.respond "networkDomainVip/importSslDomainCertificate" cert_elem
  pyInList (findtext result "responseCode") ["IN_PROGRESS", "OK"]

/-- ex_delete_ssl_domain_certificate (source lines 820-837). -/
def ex_delete_ssl_domain_certificate (conn : Conn) (dom_cert_id : String) : Bool :=
  let del_dom_cert_elem : XElem :=
    { tag := "deleteSslDomainCertificate", attrs := [("id", dom_cert_id), ("xmlns", TYPES_URN)],
      text := none, children := [] }
  let result := conn.respond "networkDomainVip/deleteSslDomainCertificate" del_dom_cert_elem
  pyInList (findtext result "responseCode") ["IN_PROGRESS", "OK"]

/-- ex_import_ssl_cert_chain (source lines 839-877); the chain certificate
is modelled after the OpenSSL round trip as above. -/
def ex_import_ssl_cert_chain (conn : Conn) (network_domain_id name : String)
    (cert : String) (description : Option String) : Bool :=
  let cert_chain_elem : XElem :=
    { tag := "importSslCertificateChain", attrs := [("xmlns", TYPES_URN)], text := none,
      children :=
        [subText "networkDomainId" (some network_domain_id),
         subText "name" (some name)]
        ++ optChild "description" description
        ++ [subText "certificateChain" (some cert)] }
  let result := conn.respond "networkDomainVip/importSslCertificateChain" cert_chain_elem
  pyInList (findtext result "responseCode") ["IN_PROGRESS", "OK"]

/-- ex_delete_ssl_certificate_chain (source lines 879-896). -/
def ex_delete_ssl_certificate_chain (conn : Conn) (cert_chain_id : String) : Bool :=
  let del_cert_chain_elem : XElem :=
    { tag := "deleteSslCertificateChain", attrs := [("id", cert_chain_id), ("xmlns", TYPES_URN)],
      text := none, children := [] }
  let result := conn.respond "networkDomainVip/deleteSslCertificateChain" del_cert_chain_elem
  pyInList (findtext result "responseCode") ["IN_PROGRESS", "OK"]

/-- ex_edit_ssl_offload_profile (source lines 947-991). -/
def ex_edit_ssl_offload_profile (conn : Conn) (profile_id name ssl_domain_cert_id : String)
    (description ciphers ssl_cert_chain_id : Option String) : Bool :=
  let ssl_offload_elem : XElem :=
    { tag := "editSslOffloadProfile", attrs := [("xmlns", TYPES_URN), ("id", profile_id)],
      text := none,
      children :=
        [subText "name" (some name)]
        ++ optChild "description" description
        ++ optChild "ciphers" ciphers
        ++ [subText "sslDomainCertificateId" (some ssl_domain_cert_id)]
        ++ optChild "sslCertificateChainId" ssl_cert_chain_id }
  let result := conn.respond "networkDomainVip/editSslOffloadProfile" ssl_offload_elem
  pyInList (findtext result "responseCode") ["IN_PROGRESS", "OK"]

/-- ex_delete_ssl_offload_profile (source lines 993-1010). -/
def ex_delete_ssl_offload_profile (conn : Conn) (profile_id : String) : Bool :=
  let del_profile_elem : XElem :=
    { tag := "deleteSslOffloadProfile", attrs := [("id", profile_id), ("xmlns", TYPES_URN)],
      text := none, children := [] }
  let result := conn.respond "networkDomainVip/deleteSslOffloadProfile" del_profile_elem
  pyInList (findtext result "responseCode") ["IN_PROGRESS", "OK"]

/-- _to_node (source lines 1466-1490).  Python reads the id attribute of
the healthMonitor child and catches the AttributeError of a missing
child; that is the bind on the optional child here. -/
def _to_node (element : XElem) : NttCisVIPNode :=
  let ipaddress :=
    match findtext element "ipv4Address" with
    | none => findtext element "ipv6Address"
    | some ip => some ip
  let name := findtext element "name"
  let hm := (xfind element "healthMonitor").bind (fun h => attrGet h "id")
  { id := attrGet element "id",
    name := name,
    status := dictGetState VALUE_TO_STATE_MAP (findtext element "state") State.UNKNOWN,
    health_monitor := hm,
    connection_rate_limit := findtext element "connectionRateLimit",
    connection_limit := findtext element "connectionLimit",
    ip := ipaddress }

/-- _to_balancer (source lines 1499-1526); the driver back-reference is
omitted from the DTO. -/
def _to_balancer (element : XElem) : LoadBalancer :=
  let ipaddress := findtext element "listenerIpAddress"
  let name := findtext element "name"
  let port := findtext element "port"
  let pool_id :=
    match xfind element "pool" with
    | none => none
    | some pool_element => attrGet pool_element "id"
  { id := attrGet element "id",
    name := name,
    state := dictGetState VALUE_TO_STATE_MAP (findtext element "state") State.UNKNOWN,
    ip := ipaddress,
    port := port.map PyVal.str,
    extra := [("pool_id", pool_id),
              ("network_domain_id", findtext element "networkDomainId")] }

/-- _to_member (source lines 1535-1547).  Python reads attributes of the
node child directly (an AttributeError on a missing child); that is the
bind on the optional child here.  The port text is converted with int()
when present. -/
def _to_member (element : XElem) : NttCisPoolMember :=
  let port := findtext element "port"
  { id := attrGet element "id",
    name := (xfind element "node").bind (fun n => attrGet n "name"),
    status := StatusV.txt (findtext element "state"),
    node_id := (xfind element "node").bind (fun n => attrGet n "id"),
    ip := (xfind element "node").bind (fun n => attrGet n "ipAddress"),
    port :=
      match port with
      | none => none
      | some p => (pyIntParse p).map PyVal.int }

/-- _to_pool (source lines 1556-1567). -/
def _to_pool (element : XElem) : NttCisPool :=
  { id := attrGet element "id",
    name := findtext element "name",
    status := StatusV.txt (findtext element "state"),
    description := findtext element "description",
    load_balance_method := findtext element "loadBalanceMethod",
    health_monitor_id := findtext element "healthMonitorId",
    service_down_action := findtext element "serviceDownAction",
    slow_ramp_time := findtext element "slowRampTime" }

/-- Spec side model for claim C1: the lookup table written out as stated,
NORMAL to RUNNING, the three PENDING_ vendor strings to PENDING, the three
FAILED_ strings and REQUIRES_SUPPORT to ERROR, everything else (including
a missing state element) to UNKNOWN. -/
def specStateTable (k : Option String) : State :=
  match k with
  | none => State.UNKNOWN
  | some s =>
    if s = "NORMAL" then State.RUNNING
    else if s = "PENDING_ADD" then State.PENDING
    else if s = "PENDING_CHANGE" then State.PENDING
    else if s = "PENDING_DELETE" then State.PENDING
    else if s = "FAILED_ADD" then State.ERROR
    else if s = "FAILED_CHANGE" then State.ERROR
    else if s = "FAILED_DELETE" then State.ERROR
    else if s = "REQUIRES_SUPPORT" then State.ERROR
    else State.UNKNOWN

/-- Spec side model for claim C5, following the claim words for _to_member:
id from the id attribute, name, node_id and ip from the node child
attributes, status from the state element text, and port VERBATIM from the
port element text. -/
def _to_member_specClaim (element : XElem) : NttCisPoolMember :=
  { id := attrGet element "id",
    name := (xfind element "node").bind (fun n => attrGet n "name"),
    status := StatusV.txt (findtext element "state"),
    node_id := (xfind element "node").bind (fun n => attrGet n "id"),
    ip := (xfind element "node").bind (fun n => attrGet n "ipAddress"),
    port := (findtext element "port").map PyVal.str }

/-- Spec side model for claim C5, following the claim words for _to_pool:
all eight fields verbatim from the correspondingly named attribute or
element text (id from the id attribute, status from the state element). -/
def _to_pool_specClaim (element : XElem) : NttCisPool :=
  { id := attrGet element "id",
    name := findtext element "name",
    status := StatusV.txt (findtext element "state"),
    description := findtext element "description",
    load_balance_method := findtext element "loadBalanceMethod",
    health_monitor_id := findtext element "healthMonitorId",
    service_down_action := findtext element "serviceDownAction",
    slow_ramp_time := findtext element "slowRampTime" }

/-- Response with no children, used as a neutral server answer in concrete
evaluations. -/
def emptyResponse : XElem := { tag := "response", attrs := [], text := none, children := [] }

/-- Concrete server response for the C4 counterexample: the info fields
carry a nodeId and a name that differs from the requested node name. -/
def cexNodeResponse : XElem :=
  { tag := "response", attrs := [], text := none,
    children :=
      [{ tag := "info", attrs := [("name", "nodeId"), ("value", "node-1")],
         text := none, children := [] },
       { tag := "info", attrs := [("name", "name"), ("value", "server-x")],
         text := none, children := [] }] }

/-- Concrete poolMember element for the C5 counterexample: a well formed
member whose port element text is the decimal string 80. -/
def cexMemberElem : XElem :=
  { tag := "poolMember", attrs := [("id", "member-1")], text := none,
    children :=
      [{ tag := "node",
         attrs := [("name", "node-a"), ("id", "node-1"), ("ipAddress", "10.0.0.5")],
         text := none, children := [] },
       subText "port" (some "80"),
       subText "state" (some "NORMAL")] }

/-- Port element texts a request should carry for a given optional port:
none for None, the decimal string for an int, per the str(port) idiom. -/
def portTexts : Option Int → List (Option String)
  | none => []
  | some p => [some (toString p)]

/-- Actions issued for one members entry of create_balancer: a plain
Member gives one addPoolMember call, a duck typed node gives a createNode
call followed by an addPoolMember call. -/
def memberActions : MemberArg → List String
  | MemberArg.member _ => ["networkDomainVip/addPoolMember"]
  | MemberArg.node _ _ => ["networkDomainVip/createNode", "networkDomainVip/addPoolMember"]

/-- Predicate selecting addPoolMember calls in a trace. -/
def isAddPoolMemberAct (p : String × XElem) : Bool :=
  p.1 == "networkDomainVip/addPoolMember"

/-- Predicate selecting createVirtualListener calls in a trace. -/
def isCreateVirtualListenerAct (p : String × XElem) : Bool :=
  p.1 == "networkDomainVip/createVirtualListener"

/-- The success condition of the response code check shared by the boolean
mutations: responseCode text equal to IN_PROGRESS or OK. -/
def responseCodeOk (resp : XElem) : Prop :=
  findtext resp "responseCode" = some "IN_PROGRESS" ∨ findtext resp "responseCode" = some "OK"

theorem dictGet_eq_specStateTable (k : Option String) :
    dictGetState VALUE_TO_STATE_MAP k State.UNKNOWN = specStateTable k := by
  cases k with
  | none => rfl
  | some s =>
    by_cases h1 : s = "NORMAL"
    · subst h1; rfl
    by_cases h2 : s = "PENDING_ADD"
    · subst h2; rfl
    by_cases h3 : s = "PENDING_CHANGE"
    · subst h3; rfl
    by_cases h4 : s = "PENDING_DELETE"
    · subst h4; rfl
    by_cases h5 : s = "FAILED_ADD"
    · subst h5; rfl
    by_cases h6 : s = "FAILED_CHANGE"
    · subst h6; rfl
    by_cases h7 : s = "FAILED_DELETE"
    · subst h7; rfl
    by_cases h8 : s = "REQUIRES_SUPPORT"
    · subst h8; rfl
    simp [dictGetState, VALUE_TO_STATE_MAP, lookupStr, specStateTable,
      h1, h2, h3, h4, h5, h6, h7, h8]

theorem pyInList_ok_iff (v : Option String) :
    pyInList v ["IN_PROGRESS", "OK"] = true ↔
      (v = some "IN_PROGRESS" ∨ v = some "OK") := by
  cases v with
  | none => simp [pyInList]
  | some s =>
    by_cases h1 : s = "IN_PROGRESS"
    · subst h1; simp [pyInList]
    by_cases h2 : s = "OK"
    · subst h2; simp [pyInList]
    simp [pyInList, h1, h2]

theorem foldl_keep_of_no_match (key : String) (l : List XElem) (a : Option String)
    (h : ∀ i ∈ l, ¬ attrGet i "name" = some key) :
    l.foldl
      (fun acc info => if attrGet info "name" = some key then attrGet info "value" else acc)
      a = a := by
  induction l generalizing a with
  | nil => rfl
  | cons x xs ih =>
    have hx := h x (List.mem_cons_self x xs)
    simp only [List.foldl_cons, if_neg hx]
    exact ih a (fun i hi => h i (List.mem_cons_of_mem x hi))

theorem infoScan_eq_none (resp : XElem) (key : String)
    (h : ∀ i ∈ findall resp "info", ¬ attrGet i "name" = some key) :
    infoScan resp key = none :=
  foldl_keep_of_no_match key (findall resp "info") none h

theorem foldl_append_eq_bind {A B : Type} (f : A → List B) (l : List A) (acc : List B) :
    l.foldl (fun a x => a ++ f x) acc = acc ++ l.flatMap f := by
  induction l generalizing acc with
  | nil => simp
  | cons x xs ih => simp [List.foldl_cons, ih, List.flatMap_cons]

theorem bind_filter_map_const {A B C : Type} (f : A → List B) (p : B → Bool) (g : B → C)
    (c : C) (l : List A) (h : ∀ x, ((f x).filter p).map g = [c]) :
    ((l.flatMap f).filter p).map g = l.map (fun _ => c) := by
  induction l with
  | nil => rfl
  | cons x xs ih => simp [List.flatMap_cons, List.filter_append, h x, ih]

theorem bind_filter_nil {A B : Type} (f : A → List B) (p : B → Bool) (l : List A)
    (h : ∀ x, (f x).filter p = []) :
    (l.flatMap f).filter p = [] := by
  induction l with
  | nil => rfl
  | cons x xs ih => simp [List.flatMap_cons, List.filter_append, h x, ih]

theorem map_bind_eq_bind {A B C : Type} (f : A → List B) (g : B → C) (h : A → List C)
    (l : List A) (hx : ∀ x, (f x).map g = h x) :
    (l.flatMap f).map g = l.flatMap h := by
  induction l with
  | nil => rfl
  | cons x xs ih => simp [List.flatMap_cons, hx x, ih]

theorem addPoolMemberRequest_port (pid nid : Option String) (port : Option Int) :
    childTexts (addPoolMemberRequest pid nid port) "port" = portTexts port := by
  cases port with
  | none => rfl
  | some p => rfl

theorem attachMemberTrace_filter_port (conn : Conn) (nd : String) (pool : NttCisPool)
    (port : Option Int) (m : MemberArg) :
    ((attachMemberTrace conn nd pool port m).filter isAddPoolMemberAct).map
      (fun p => childTexts p.2 "port") = [portTexts port] := by
  cases m with
  | member mm =>
    show [childTexts (addPoolMemberRequest pool.id mm.id port) "port"] = [portTexts port]
    rw [addPoolMemberRequest_port]
  | node nm ips =>
    show [childTexts (addPoolMemberRequest pool.id _ port) "port"] = [portTexts port]
    rw [addPoolMemberRequest_port]

theorem attachMemberTrace_actions (conn : Conn) (nd : String) (pool : NttCisPool)
    (port : Option Int) (m : MemberArg) :
    (attachMemberTrace conn nd pool port m).map Prod.fst = memberActions m := by
  cases m with
  | member mm => rfl
  | node nm ips => rfl

theorem attachMemberTrace_no_listener (conn : Conn) (nd : String) (pool : NttCisPool)
    (port : Option Int) (m : MemberArg) :
    (attachMemberTrace conn nd pool port m).filter isCreateVirtualListenerAct = [] := by
  cases m with
  | member mm => rfl
  | node nm ips => rfl

/-- Claim C1: for every XML element parsed by _to_balancer or _to_node the
resulting state is determined solely by the vendor state string through
the fixed lookup table (NORMAL to RUNNING, PENDING_ADD, PENDING_CHANGE
and PENDING_DELETE to PENDING, FAILED_ADD, FAILED_CHANGE, FAILED_DELETE
and REQUIRES_SUPPORT to ERROR), with every string outside the table and a
missing state element giving State.UNKNOWN. -/
theorem toNode_toBalancer_state_lookup (element : XElem) :
    (_to_node element).status = specStateTable (findtext element "state") ∧
    (_to_balancer element).state = specStateTable (findtext element "state") :=
  ⟨dictGet_eq_specStateTable (findtext element "state"),
   dictGet_eq_specStateTable (findtext element "state")⟩

/-- Claim C3: every boolean returning mutation returns true exactly when
the responseCode text of the parsed response is IN_PROGRESS or OK, for
every response element and all arguments (a missing responseCode element
gives false); nothing else in the response affects the result. -/
theorem mutation_true_iff_responseCode (resp : XElem) (balancer : LoadBalancer)
    (member : Member) (vl_id : String) (kwargs : List (String × Option String))
    (pool : NttCisPool) (node_id : String) (pm : NttCisPoolMember) (enabled : Bool)
    (nd nm cert key chain_id prof_id dom_id : String)
    (descr ciphers chain_opt : Option String) :
    (destroy_balancer (constConn resp) balancer = true ↔ responseCodeOk resp) ∧
    (balancer_detach_member (constConn resp) balancer member = true ↔ responseCodeOk resp) ∧
    (ex_update_listener (constConn resp) vl_id kwargs = true ↔ responseCodeOk resp) ∧
    (ex_update_pool (constConn resp) pool = true ↔ responseCodeOk resp) ∧
    (ex_destroy_pool (constConn resp) pool = true ↔ responseCodeOk resp) ∧
    (ex_destroy_node (constConn resp) node_id = true ↔ responseCodeOk resp) ∧
    (ex_set_pool_member_state (constConn resp) pm enabled = true ↔ responseCodeOk resp) ∧
    (ex_import_ssl_domain_certificate (constConn resp) nd nm cert key descr = true ↔
      responseCodeOk resp) ∧
    (ex_delete_ssl_domain_certificate (constConn resp) dom_id = true ↔ responseCodeOk resp) ∧
    (ex_import_ssl_cert_chain (constConn resp) nd nm cert descr = true ↔ responseCodeOk resp) ∧
    (ex_delete_ssl_certificate_chain (constConn resp) chain_id = true ↔ responseCodeOk resp) ∧
    (ex_edit_ssl_offload_profile (constConn resp) prof_id nm dom_id descr ciphers chain_opt
        = true ↔ responseCodeOk resp) ∧
    (ex_delete_ssl_offload_profile (constConn resp) prof_id = true ↔ responseCodeOk resp) :=
  ⟨pyInList_ok_iff _, pyInList_ok_iff _, pyInList_ok_iff _, pyInList_ok_iff _,
   pyInList_ok_iff _, pyInList_ok_iff _, pyInList_ok_iff _, pyInList_ok_iff _,
   pyInList_ok_iff _, pyInList_ok_iff _, pyInList_ok_iff _, pyInList_ok_iff _,
   pyInList_ok_iff _⟩

/-- Claim C5 counterexample: on a well formed poolMember element whose
port element text is the string 80, _to_member stores the int 80 obtained
with int(), not the verbatim text, so the parsed member differs from the
member with all fields copied verbatim as the claim states. -/
theorem toMember_port_not_verbatim :
    (_to_member cexMemberElem).port = some (PyVal.int 80) ∧
    (_to_member_specClaim cexMemberElem).port = some (PyVal.str "80") ∧
    ¬ _to_member cexMemberElem = _to_member_specClaim cexMemberElem :=
  ⟨rfl, rfl, fun h => by
    have hp := congrArg NttCisPoolMember.port h
    revert hp
    decide⟩

/-- Claim C5 (amended): _to_member fills id, name, node_id, ip and status
from the named attributes and elements exactly as stated, and fills port
with the port element text converted by int() (None when the element is
missing); _to_pool fills all eight fields verbatim as stated. -/
theorem toMember_toPool_fields (element : XElem) :
    _to_member element =
      { _to_member_specClaim element with
        port := (findtext element "port").bind (fun p => (pyIntParse p).map PyVal.int) } ∧
    _to_pool element = _to_pool_specClaim element := by
  refine ⟨?_, rfl⟩
  cases hp : findtext element "port" <;>
    simp [_to_member, _to_member_specClaim, hp]

/-- Claim C6: the addPoolMember request carries poolId equal to the pool
id, nodeId equal to the node id, status ENABLED, and a port element with
the decimal port exactly when port is not None; the returned member binds
that node into that pool on that port with status RUNNING and takes id
and name from the poolMemberId and nodeName info fields of the response,
each None when no such info field is present. -/
theorem ex_create_pool_member_characterization (conn : Conn) (pool : NttCisPool)
    (node_id node_ip : Option String) (port : Option Int) :
    (ex_create_pool_member conn pool node_id node_ip port).2 =
      [("networkDomainVip/addPoolMember", addPoolMemberRequest pool.id node_id port)] ∧
    (xfind (addPoolMemberRequest pool.id node_id port) "poolId").map (fun c => c.text) =
      some pool.id ∧
    (xfind (addPoolMemberRequest pool.id node_id port) "nodeId").map (fun c => c.text) =
      some node_id ∧
    childTexts (addPoolMemberRequest pool.id node_id port) "status" = [some "ENABLED"] ∧
    childTexts (addPoolMemberRequest pool.id node_id port) "port" = portTexts port ∧
    (ex_create_pool_member conn pool node_id node_ip port).1 =
      { id := infoScan (conn.respond "networkDomainVip/addPoolMember"
          (addPoolMemberRequest pool.id node_id port)) "poolMemberId",
        name := infoScan (conn.respond "networkDomainVip/addPoolMember"
          (addPoolMemberRequest pool.id node_id port)) "nodeName",
        status := StatusV.enum State.RUNNING,
        ip := node_ip,
        port := port.map PyVal.int,
        node_id := node_id } ∧
    (∀ resp, (∀ i ∈ findall resp "info", ¬ attrGet i "name" = some "poolMemberId") →
      (ex_create_pool_member (constConn resp) pool node_id node_ip port).1.id = none) ∧
    (∀ resp, (∀ i ∈ findall resp "info", ¬ attrGet i "name" = some "nodeName") →
      (ex_create_pool_member (constConn resp) pool node_id node_ip port).1.name = none) := by
  refine ⟨rfl, rfl, rfl, ?_, addPoolMemberRequest_port pool.id node_id port, rfl,
    fun resp h => infoScan_eq_none resp "poolMemberId" h,
    fun resp h => infoScan_eq_none resp "nodeName" h⟩
  cases port <;> rfl

/-- Witness for the C6 characterization at concrete inputs, discharging
the info field hypotheses on a response without info children. -/
theorem ex_create_pool_member_characterization_witness :
    (ex_create_pool_member (constConn emptyResponse)
      { id := some "pool-1", name := some "p", description := none,
        status := StatusV.enum State.RUNNING, load_balance_method := some "ROUND_ROBIN",
        health_monitor_id := none, service_down_action := some "NONE",
        slow_ramp_time := some "30" } (some "node-1") (some "10.0.0.9") (some 8080)).1.id
      = none := by
  have h := ex_create_pool_member_characterization (constConn emptyResponse)
    { id := some "pool-1", name := some "p", description := none,
      status := StatusV.enum State.RUNNING, load_balance_method := some "ROUND_ROBIN",
      health_monitor_id := none, service_down_action := some "NONE",
      slow_ramp_time := some "30" } (some "node-1") (some "10.0.0.9") (some 8080)
  exact h.2.2.2.2.2.2.1 emptyResponse (by intro i hi; cases hi)

/-- Claim C7: ex_wait_for_state returns exactly the result of the
connection wait_for_state called on the same state, function, poll
interval, timeout and extra arguments, for every such connection
function; poll_interval defaults to 2 and timeout to 60, and the driver
method performs no polling or state inspection of its own. -/
theorem ex_wait_for_state_delegates {A B C D : Type}
    (connection_wait_for_state : A → B → Int → Int → C → D) (state : A) (func : B)
    (poll_interval timeout : Int) (args : C) :
    ex_wait_for_state connection_wait_for_state state func poll_interval timeout args =
      connection_wait_for_state state func poll_interval timeout args ∧
    ex_wait_for_state_defaults connection_wait_for_state state func args =
      connection_wait_for_state state func 2 60 args ∧
    DEFAULT_POLL_INTERVAL = 2 ∧ DEFAULT_TIMEOUT = 60 :=
  ⟨rfl, rfl, rfl, rfl⟩

/-- Claim C8: ex_create_pool sends the name argument unchanged: the name
element of the createPool request (both in the builder and in the request
actually issued) carries exactly the given name, spaces included, while
the space to underscore replacement whose result line 597 discards would
have produced a different string on a name with spaces. -/
theorem ex_create_pool_sends_name_unchanged (conn : Conn)
    (nd nm bm : String) (descr : Option String) (hm : Option (List String))
    (sda : String) (srt : Int) :
    findtext (createPoolRequest nd nm bm descr hm sda srt) "name" = some nm ∧
    ((ex_create_pool conn nd nm bm descr hm sda srt).2.map
      (fun p => findtext p.2 "name")) = [some nm] ∧
    findtext (createPoolRequest nd "my pool" bm descr hm sda srt) "name" = some "my pool" ∧
    replaceSpaceWithUnderscore "my pool" = "my_pool" :=
  ⟨rfl, rfl, rfl, rfl⟩

/-- Claim C10: the editNode request of ex_set_node_state has only the
xmlns attribute and exactly one child, a status element reading ENABLED
when enabled is true and DISABLED otherwise; it carries no id attribute
and no id element identifying the node, and the function returns its node
argument unchanged for every server response. -/
theorem ex_set_node_state_request_and_result (conn : Conn) (node : NttCisVIPNode)
    (enabled : Bool) :
    (ex_set_node_state conn node enabled).1 = node ∧
    (ex_set_node_state conn node enabled).2 =
      [("networkDomainVip/editNode", setNodeStateRequest enabled)] ∧
    (setNodeStateRequest enabled).attrs = [("xmlns", TYPES_URN)] ∧
    attrGet (setNodeStateRequest enabled) "id" = none ∧
    (setNodeStateRequest enabled).children =
      [subText "status" (some (if enabled then "ENABLED" else "DISABLED"))] ∧
    findtext (setNodeStateRequest enabled) "id" = none :=
  ⟨rfl, rfl, rfl, rfl, rfl, rfl⟩

/-- Claim C4 counterexample: ex_create_node does not echo the requested
name into the returned DTO; against a response whose info field named
name carries server-x, the node created under the request name mynode
comes back named server-x. -/
theorem create_node_name_counterexample :
    (ex_create_node (constConn cexNodeResponse) "dom" "mynode" "10.0.0.1" none
      25000 2000).1.name = some "server-x" ∧
    ¬ (ex_create_node (constConn cexNodeResponse) "dom" "mynode" "10.0.0.1" none
      25000 2000).1.name = some "mynode" :=
  ⟨rfl, by decide⟩

/-- Claim C2 counterexample: create_balancer called with listener_port
8080 and node port 9090 returns a LoadBalancer whose port is 9090, the
node port argument, not the port of the created virtual listener front
end. -/
theorem create_balancer_port_counterexample :
    (create_balancer (constConn emptyResponse) "dom" "lb" (some 8080) (some 9090)
        none none none (some "TCP") none).toOption.map (fun r => r.1.port) =
      some (some (PyVal.int 9090)) ∧
    ¬ (create_balancer (constConn emptyResponse) "dom" "lb" (some 8080) (some 9090)
        none none none (some "TCP") none).toOption.map (fun r => r.1.port) =
      some (some (PyVal.int 8080)) :=
  ⟨rfl, by decide⟩

/-- Claim C9: ex_create_virtual_listener raises ValueError exactly when
optimization_profile is None and port is neither 80 nor 443; when port is
80 or 443 the call proceeds without error even with no profile and the
request sends type PERFORMANCE_LAYER_4, and every other successful call
sends type STANDARD. -/
theorem ex_create_virtual_listener_type_and_error (conn : Conn) (nd nm : String)
    (descr : Option String) (port : Option Int) (pool : Option NttCisPool)
    (lip ppid fppid irid : Option String) (protocol : String) (opt : Option String)
    (cl crl : Int) (spp : String) :
    match ex_create_virtual_listener conn nd nm descr port pool lip ppid fppid irid
        protocol opt cl crl spp with
    | Except.error _ => opt = none ∧ ¬ port = some 80 ∧ ¬ port = some 443
    | Except.ok r =>
        ¬ (opt = none ∧ ¬ port = some 80 ∧ ¬ port = some 443) ∧
        r.2.map (fun p => findtext p.2 "type") =
          [some (if port = some 80 ∨ port = some 443
                 then "PERFORMANCE_LAYER_4" else "STANDARD")] := by
  simp only [ex_create_virtual_listener]
  by_cases hP : port = some 80 ∨ port = some 443
  · simp only [if_pos hP]
    have hfalse : ¬ (("PERFORMANCE_LAYER_4" : String) = "STANDARD" ∧ opt = none) :=
      fun hc => absurd hc.1 (by decide)
    rw [if_neg hfalse]
    refine ⟨fun hc => ?_, ?_⟩
    · rcases hP with h | h
      · exact hc.2.1 h
      · exact hc.2.2 h
    · rfl
  · simp only [if_neg hP]
    by_cases hO : opt = none
    · rw [if_pos (show True ∧ opt = none from ⟨trivial, hO⟩)]
      exact ⟨hO, fun h => hP (Or.inl h), fun h => hP (Or.inr h)⟩
    · rw [if_neg (show ¬ (True ∧ opt = none) from fun hc => hO hc.2)]
      exact ⟨fun hc => hO hc.1, rfl⟩

theorem create_trace_actions (conn : Conn) (nd : String) (pool : NttCisPool)
    (node_port : Option Int) (ms : List MemberArg) (pre post : String) (preq lreq : XElem) :
    (([(pre, preq)]
        ++ ms.foldl (fun acc m => acc ++ attachMemberTrace conn nd pool node_port m) []
        ++ [(post, lreq)]).map Prod.fst)
      = [pre] ++ ms.flatMap memberActions ++ [post] := by
  rw [List.map_append, List.map_append, foldl_append_eq_bind, List.nil_append,
    map_bind_eq_bind (attachMemberTrace conn nd pool node_port) Prod.fst memberActions ms
      (fun m => attachMemberTrace_actions conn nd pool node_port m)]
  rfl

theorem create_trace_filter_ports (conn : Conn) (nd : String) (pool : NttCisPool)
    (node_port : Option Int) (ms : List MemberArg) (preq lreq : XElem) :
    ((([("networkDomainVip/createPool", preq)]
        ++ ms.foldl (fun acc m => acc ++ attachMemberTrace conn nd pool node_port m) []
        ++ [("networkDomainVip/createVirtualListener", lreq)]).filter
      isAddPoolMemberAct).map (fun p => childTexts p.2 "port"))
      = ms.map (fun _ => portTexts node_port) := by
  rw [List.filter_append, List.filter_append, foldl_append_eq_bind, List.nil_append]
  show ((([] : Trace)
      ++ ((ms.flatMap (attachMemberTrace conn nd pool node_port)).filter isAddPoolMemberAct)
      ++ ([] : Trace)).map (fun p => childTexts p.2 "port"))
    = ms.map (fun _ => portTexts node_port)
  rw [List.nil_append, List.append_nil]
  exact bind_filter_map_const (attachMemberTrace conn nd pool node_port) isAddPoolMemberAct
    (fun p => childTexts p.2 "port") (portTexts node_port) ms
    (fun m => attachMemberTrace_filter_port conn nd pool node_port m)

theorem create_trace_filter_listener {C : Type} (conn : Conn) (nd : String)
    (pool : NttCisPool) (node_port : Option Int) (ms : List MemberArg) (preq lreq : XElem)
    (g : String × XElem → C) :
    ((([("networkDomainVip/createPool", preq)]
        ++ ms.foldl (fun acc m => acc ++ attachMemberTrace conn nd pool node_port m) []
        ++ [("networkDomainVip/createVirtualListener", lreq)]).filter
      isCreateVirtualListenerAct).map g)
      = [g ("networkDomainVip/createVirtualListener", lreq)] := by
  rw [List.filter_append, List.filter_append, foldl_append_eq_bind, List.nil_append,
    bind_filter_nil (attachMemberTrace conn nd pool node_port) isCreateVirtualListenerAct ms
      (fun m => attachMemberTrace_no_listener conn nd pool node_port m)]
  rfl

/-- Claim C4 (amended): for every create operation the identifier of the
returned DTO is the value of the response info element whose name
attribute matches (poolId for ex_create_pool, nodeId for ex_create_node,
poolMemberId for ex_create_pool_member, virtualListenerId for
ex_create_virtual_listener) and is None when the response contains no
such info element; the status of the returned DTO is State.RUNNING
regardless of the response content; the remaining fields echo the request
arguments, except that ex_create_node takes its name from the response
info field named name, ex_create_pool_member takes its name from the
response info field named nodeName, ex_create_virtual_listener takes its
ip from the response info field named listenerIpAddress (each None when
absent), and ex_create_pool always sets health_monitor_id to None. -/
theorem create_ops_response_parsing (conn : Conn) (nd nm ip bm : String)
    (descr : Option String) (hm : Option (List String)) (sda : String) (srt cl crl : Int)
    (port : Option Int) (pool : NttCisPool) (node_id node_ip : Option String)
    (lip ppid fppid irid opt : Option String) (protocol spp : String) :
    (ex_create_pool conn nd nm bm descr hm sda srt).1 =
      { id := infoScan (conn.respond "networkDomainVip/createPool"
          (createPoolRequest nd nm bm descr hm sda srt)) "poolId",
        name := some nm, description := descr, status := StatusV.enum State.RUNNING,
        load_balance_method := some bm, health_monitor_id := none,
        service_down_action := some sda, slow_ramp_time := some (toString srt) } ∧
    (ex_create_node conn nd nm ip descr cl crl).1 =
      { id := infoScan (conn.respond "networkDomainVip/createNode"
          (createNodeRequest nd nm ip descr cl crl)) "nodeId",
        name := infoScan (conn.respond "networkDomainVip/createNode"
          (createNodeRequest nd nm ip descr cl crl)) "name",
        status := State.RUNNING, ip := some ip, health_monitor := none,
        connection_limit := none, connection_rate_limit := none } ∧
    (ex_create_pool_member conn pool node_id node_ip port).1 =
      { id := infoScan (conn.respond "networkDomainVip/addPoolMember"
          (addPoolMemberRequest pool.id node_id port)) "poolMemberId",
        name := infoScan (conn.respond "networkDomainVip/addPoolMember"
          (addPoolMemberRequest pool.id node_id port)) "nodeName",
        status := StatusV.enum State.RUNNING, ip := node_ip,
        port := port.map PyVal.int, node_id := node_id } ∧
    (∀ r, ex_create_virtual_listener conn nd nm descr port (some pool) lip ppid fppid irid
        protocol opt cl crl spp = Except.ok r →
      r.1.status = State.RUNNING ∧ r.1.name = some nm ∧
      r.2.map (fun p => infoScan (conn.respond "networkDomainVip/createVirtualListener" p.2)
        "virtualListenerId") = [r.1.id] ∧
      r.2.map (fun p => infoScan (conn.respond "networkDomainVip/createVirtualListener" p.2)
        "listenerIpAddress") = [r.1.ip]) ∧
    (∀ resp key, (∀ i ∈ findall resp "info", ¬ attrGet i "name" = some key) →
      infoScan resp key = none) := by
  refine ⟨rfl, rfl, rfl, ?_, fun resp key h => infoScan_eq_none resp key h⟩
  intro r hr
  revert hr
  simp only [ex_create_virtual_listener]
  by_cases h : (if port = some 80 ∨ port = some 443
      then "PERFORMANCE_LAYER_4" else "STANDARD") = "STANDARD" ∧ opt = none
  · rw [if_pos h]
    intro hr
    cases hr
  · rw [if_neg h]
    intro hr
    injection hr with h2
    subst h2
    exact ⟨rfl, rfl, rfl, rfl⟩

/-- Witness for the C4 amended theorem at concrete inputs: the poolId info
lookup on a response without info children is None, via the final
component of the theorem. -/
theorem create_ops_response_parsing_witness :
    infoScan emptyResponse "poolId" = none := by
  have h := create_ops_response_parsing (constConn emptyResponse) "dom" "nm" "10.0.0.1"
    "ROUND_ROBIN" none none "NONE" 30 25000 2000 none
    { id := some "pool-1", name := some "p", description := none,
      status := StatusV.enum State.RUNNING, load_balance_method := some "ROUND_ROBIN",
      health_monitor_id := none, service_down_action := some "NONE",
      slow_ramp_time := some "30" }
    none none none none none none none "TCP" "PRESERVE"
  exact h.2.2.2.2 emptyResponse "poolId" (by intro i hi; cases hi)

/-- Claim C2 (amended): create_balancer first creates a pool named name
with the vendor string for the algorithm (protocol defaulting to http and
algorithm to ROUND_ROBIN), then issues one addPoolMember call per
supplied member on the node port argument (preceded by a createNode call
for entries that are not Member instances), then creates a virtual
listener on listener_port bound to that pool, and returns a LoadBalancer
whose id, name and ip are those of the created virtual listener, whose
state is RUNNING, whose extra records pool_id, network_domain_id and
listener_ip_address, and whose port is the node port argument, not the
port of the created listener front end; the call fails exactly when the
listener creation raises ValueError. -/
theorem create_balancer_characterization (conn : Conn) (nd nm : String)
    (listener_port node_port : Option Int) (protocol : Option String)
    (algorithm : Option Algorithm) (members : Option (List MemberArg))
    (opt lip : Option String) :
    findtext (createPoolRequest nd nm
        (ALGORITHM_TO_VALUE_MAP (algorithm.getD DEFAULT_ALGORITHM)) none none "NONE" 30)
      "name" = some nm ∧
    findtext (createPoolRequest nd nm
        (ALGORITHM_TO_VALUE_MAP (algorithm.getD DEFAULT_ALGORITHM)) none none "NONE" 30)
      "loadBalanceMethod" =
      some (ALGORITHM_TO_VALUE_MAP (algorithm.getD DEFAULT_ALGORITHM)) ∧
    match create_balancer conn nd nm listener_port node_port protocol algorithm members
        opt lip with
    | Except.error _ =>
        opt = none ∧ ¬ listener_port = some 80 ∧ ¬ listener_port = some 443
    | Except.ok r =>
        r.1.state = State.RUNNING ∧
        r.1.name = some nm ∧
        r.1.port = node_port.map PyVal.int ∧
        r.1.extra =
          [("pool_id",
            (ex_create_pool conn nd nm
              (ALGORITHM_TO_VALUE_MAP (algorithm.getD DEFAULT_ALGORITHM))
              none none "NONE" 30).1.id),
           ("network_domain_id", some nd),
           ("listener_ip_address", lip)] ∧
        r.2.map Prod.fst =
          ["networkDomainVip/createPool"]
            ++ (members.getD []).flatMap memberActions
            ++ ["networkDomainVip/createVirtualListener"] ∧
        r.2.head? = some ("networkDomainVip/createPool",
          createPoolRequest nd nm
            (ALGORITHM_TO_VALUE_MAP (algorithm.getD DEFAULT_ALGORITHM)) none none "NONE" 30) ∧
        (r.2.filter isAddPoolMemberAct).map (fun p => childTexts p.2 "port") =
          (members.getD []).map (fun _ => portTexts node_port) ∧
        (r.2.filter isCreateVirtualListenerAct).map
            (fun p => (findtext p.2 "port",
                       (xfind p.2 "poolId").map (fun c => c.text),
                       findtext p.2 "protocol")) =
          [(listener_port.map (fun i => toString i),
            some (ex_create_pool conn nd nm
              (ALGORITHM_TO_VALUE_MAP (algorithm.getD DEFAULT_ALGORITHM))
              none none "NONE" 30).1.id,
            some (protocol.getD "http"))] ∧
        (r.2.filter isCreateVirtualListenerAct).map
            (fun p => infoScan (conn.respond "networkDomainVip/createVirtualListener" p.2)
              "virtualListenerId") = [r.1.id] ∧
        (r.2.filter isCreateVirtualListenerAct).map
            (fun p => infoScan (conn.respond "networkDomainVip/createVirtualListener" p.2)
              "listenerIpAddress") = [r.1.ip] := by
  refine ⟨rfl, rfl, ?_⟩
  simp only [create_balancer, ex_create_virtual_listener]
  by_cases hP : listener_port = some 80 ∨ listener_port = some 443
  · rw [if_pos hP,
      if_neg (show ¬ (("PERFORMANCE_LAYER_4" : String) = "STANDARD" ∧ opt = none) from
        fun hc => absurd hc.1 (by decide))]
    refine ⟨rfl, rfl, rfl, rfl, create_trace_actions conn nd _ node_port _ _ _ _ _, rfl,
      create_trace_filter_ports conn nd _ node_port _ _ _, ?_, ?_, ?_⟩
    · refine Eq.trans (create_trace_filter_listener conn nd _ node_port _ _ _ _) ?_
      cases lip <;> cases listener_port <;> cases opt <;> rfl
    · exact create_trace_filter_listener conn nd _ node_port _ _ _ _
    · exact create_trace_filter_listener conn nd _ node_port _ _ _ _
  · simp only [if_neg hP]
    by_cases hO : opt = none
    · rw [if_pos (show True ∧ opt = none from ⟨trivial, hO⟩)]
      exact ⟨hO, fun h => hP (Or.inl h), fun h => hP (Or.inr h)⟩
    · rw [if_neg (show ¬ (True ∧ opt = none) from fun hc => hO hc.2)]
      refine ⟨rfl, rfl, rfl, rfl, create_trace_actions conn nd _ node_port _ _ _ _ _, rfl,
        create_trace_filter_ports conn nd _ node_port _ _ _, ?_, ?_, ?_⟩
      · refine Eq.trans (create_trace_filter_listener conn nd _ node_port _ _ _ _) ?_
        cases lip <;> cases listener_port <;> cases opt <;> rfl
      · exact create_trace_filter_listener conn nd _ node_port _ _ _ _
      · exact create_trace_filter_listener conn nd _ node_port _ _ _ _

end NttCisModel
